import Mathlib

/-!
Verification of the read-only school-records HTTP API (src/main.js).

The development shallowly embeds the request-handling and validation
pipeline: the GUID validator `isValidGuid`, the data loader `loadData`,
the two route handlers `getAllData` and `getItemByGuid`, the error
middleware, the route-not-found handler, and the composed dispatch
`serve`.  JavaScript values are modelled by `JSValue`; JavaScript
exceptions by `Except`.
-/

namespace JsApi

/-- Model of a JavaScript value as produced by JSON parsing and
manipulated by the handlers.  `undefined` models the JavaScript
`undefined` value (never produced by JSON parsing, but produced by
property access on a non-object or on an object lacking the field). -/
inductive JSValue where
  | undefined : JSValue
  | null : JSValue
  | bool : Bool → JSValue
  | num : Int → JSValue
  | str : String → JSValue
  | arr : List JSValue → JSValue
  | obj : List (String × JSValue) → JSValue
deriving Repr

/-- Hexadecimal digit test, embedding the character class `[0-9a-f]`
under the regex's `i` flag (src/main.js line 79). -/
def isHexDigit (c : Char) : Bool :=
  c.isDigit || ('a' ≤ c && c ≤ 'f') || ('A' ≤ c && c ≤ 'F')

/-- Consume exactly `n` hexadecimal digits from the front of the
character list, returning the remainder; embeds a `[0-9a-f]{n}`
regex fragment. -/
def hexRun : Nat → List Char → Option (List Char)
  | 0, l => some l
  | _ + 1, [] => none
  | n + 1, c :: rest => if isHexDigit c then hexRun n rest else none

/-- Consume a single hyphen from the front of the character list. -/
def hyphenStep : List Char → Option (List Char)
  | c :: rest => if c = '-' then some rest else none
  | [] => none

/-- The matching chain of the anchored regex
`^[0-9a-f]{8}-[0-9a-f]{4}-[0-9a-f]{4}-[0-9a-f]{4}-[0-9a-f]{12}$` with
the `i` flag (GUID_REGEX, src/main.js lines 78-79): five hexadecimal
runs of lengths 8, 4, 4, 4, 12 separated by hyphens. -/
def guidChain (s : String) : Option (List Char) :=
  (((((((((hexRun 8 s.data).bind hyphenStep).bind (hexRun 4)).bind
      hyphenStep).bind (hexRun 4)).bind hyphenStep).bind (hexRun 4)).bind
      hyphenStep).bind (hexRun 12))

/-- Embedding of `GUID_REGEX.test`: the anchored chain must consume
the whole string. -/
def guidRegexTest (s : String) : Bool :=
  match guidChain s with
  | some [] => true
  | _ => false

/-- Embedding of `isValidGuid` (src/main.js lines 86-88): a type test
`typeof guid === 'string'` followed by the regex test. -/
def isValidGuid (guid : JSValue) : Bool :=
  match guid with
  | .str s => guidRegexTest s
  | _ => false

/-- JSON whitespace characters. -/
def jsonWs (c : Char) : Bool :=
  c = ' ' || c = '\t' || c = '\n' || c = '\r'

/-- Drop leading JSON whitespace. -/
def skipWs : List Char → List Char
  | [] => []
  | c :: rest => if jsonWs c then skipWs rest else c :: rest

/-- Decode a single-character JSON string escape. -/
def escChar (c : Char) : Except String Char :=
  match c with
  | '"' => .ok '"'
  | '\\' => .ok '\\'
  | '/' => .ok '/'
  | 'b' => .ok (Char.ofNat 8)
  | 'f' => .ok (Char.ofNat 12)
  | 'n' => .ok '\n'
  | 'r' => .ok '\r'
  | 't' => .ok '\t'
  | _ => .error "Unsupported escape in JSON string"

/-- Parse the body of a JSON string after the opening quote, up to and
including the closing quote; returns the decoded characters and the
remaining input. -/
def parseStringChars : List Char → Except String (List Char × List Char)
  | [] => .error "Unterminated string in JSON"
  | '"' :: rest => .ok ([], rest)
  | '\\' :: [] => .error "Unterminated string in JSON"
  | '\\' :: e :: rest => do
    let c ← escChar e
    let (cs, r) ← parseStringChars rest
    .ok (c :: cs, r)
  | c :: rest => do
    let (cs, r) ← parseStringChars rest
    .ok (c :: cs, r)

/-- Parse a JSON integer literal (an optional minus sign followed by
decimal digits).  Fractions and exponents are rejected: the dataset
this system serves holds only strings, objects and arrays, so the
model restricts numeric literals to integers. -/
def parseNum (l : List Char) : Except String (JSValue × List Char) :=
  let (neg, l1) := match l with
    | '-' :: r => (true, r)
    | _ => (false, l)
  let digits := l1.takeWhile Char.isDigit
  let rest := l1.dropWhile Char.isDigit
  if digits.isEmpty then .error "Invalid number in JSON"
  else
    match rest with
    | '.' :: _ => .error "Fractional numbers not supported by this model"
    | 'e' :: _ => .error "Exponents not supported by this model"
    | 'E' :: _ => .error "Exponents not supported by this model"
    | _ =>
      let n : Nat := digits.foldl (fun a c => a * 10 + (c.toNat - 48)) 0
      .ok (.num (if neg then -(n : Int) else (n : Int)), rest)

mutual

/-- Modelled from the spec: the `JSON.parse` builtin used by `loadData`
(src/main.js line 99) is host-runtime code not present in the
repository; this is a recursive-descent parser for JSON values
(strings, integers, booleans, null, arrays, objects), fuelled to make
termination structural. -/
def parseVal : Nat → List Char → Except String (JSValue × List Char)
  | 0, _ => .error "JSON parser fuel exhausted"
  | Nat.succ fuel, l =>
    match skipWs l with
    | [] => .error "Unexpected end of JSON input"
    | 'n' :: 'u' :: 'l' :: 'l' :: rest => .ok (.null, rest)
    | 't' :: 'r' :: 'u' :: 'e' :: rest => .ok (.bool true, rest)
    | 'f' :: 'a' :: 'l' :: 's' :: 'e' :: rest => .ok (.bool false, rest)
    | '"' :: rest => do
      let (cs, r) ← parseStringChars rest
      .ok (.str (String.mk cs), r)
    | '[' :: rest => do
      let (items, r) ← parseArr fuel rest
      .ok (.arr items, r)
    | '\x7b' :: rest => do
      let (fields, r) ← parseObj fuel rest
      .ok (.obj fields, r)
    | c :: rest =>
      if c.isDigit || c = '-' then parseNum (c :: rest)
      else .error "Unexpected token in JSON"

/-- Parse the items of a JSON array after the opening bracket, up to
and including the closing bracket. -/
def parseArr : Nat → List Char → Except String (List JSValue × List Char)
  | 0, _ => .error "JSON parser fuel exhausted"
  | Nat.succ fuel, l =>
    match skipWs l with
    | ']' :: rest => .ok ([], rest)
    | other => do
      let (v, r) ← parseVal fuel other
      let (vs, r2) ← parseArrTail fuel r
      .ok (v :: vs, r2)

/-- Parse the remaining items of a JSON array after one item has been
read: either a closing bracket or a comma followed by more items. -/
def parseArrTail : Nat → List Char → Except String (List JSValue × List Char)
  | 0, _ => .error "JSON parser fuel exhausted"
  | Nat.succ fuel, l =>
    match skipWs l with
    | ']' :: rest => .ok ([], rest)
    | ',' :: rest => do
      let (v, r) ← parseVal fuel rest
      let (vs, r2) ← parseArrTail fuel r
      .ok (v :: vs, r2)
    | _ => .error "Expected comma or closing bracket in JSON array"

/-- Parse the fields of a JSON object after the opening brace, up to
and including the closing brace. -/
def parseObj : Nat → List Char → Except String (List (String × JSValue) × List Char)
  | 0, _ => .error "JSON parser fuel exhausted"
  | Nat.succ fuel, l =>
    match skipWs l with
    | '\x7d' :: rest => .ok ([], rest)
    | other => do
      let (f, r) ← parseField fuel other
      let (fs, r2) ← parseObjTail fuel r
      .ok (f :: fs, r2)

/-- Parse the remaining fields of a JSON object after one field has
been read: either a closing brace or a comma followed by more fields. -/
def parseObjTail : Nat → List Char → Except String (List (String × JSValue) × List Char)
  | 0, _ => .error "JSON parser fuel exhausted"
  | Nat.succ fuel, l =>
    match skipWs l with
    | '\x7d' :: rest => .ok ([], rest)
    | ',' :: rest => do
      let (f, r) ← parseField fuel rest
      let (fs, r2) ← parseObjTail fuel r
      .ok (f :: fs, r2)
    | _ => .error "Expected comma or closing brace in JSON object"

/-- Parse a single key-value field of a JSON object. -/
def parseField : Nat → List Char → Except String ((String × JSValue) × List Char)
  | 0, _ => .error "JSON parser fuel exhausted"
  | Nat.succ fuel, l =>
    match skipWs l with
    | '"' :: rest => do
      let (cs, r) ← parseStringChars rest
      match skipWs r with
      | ':' :: r2 => do
        let (v, r3) ← parseVal fuel r2
        .ok ((String.mk cs, v), r3)
      | _ => .error "Expected colon in JSON object"
    | _ => .error "Expected string key in JSON object"

end

/-- Modelled from the spec: top-level `JSON.parse` — parse a complete
JSON document, requiring only whitespace after the top-level value. -/
def jsonParse (s : String) : Except String JSValue := do
  let (v, rest) ← parseVal (3 * s.length + 3) s.data
  match skipWs rest with
  | [] => .ok v
  | _ => .error "Unexpected non-whitespace character after JSON value"

/-- Embedding of `loadData` (src/main.js lines 95-104).  The outcome
of the `fs.readFile` call is abstracted as `readResult` (the file
system is outside the program); on a read failure or a parse failure
the error message is wrapped, and on success the parsed value is
returned unchanged — the code performs no check on the shape of the
parsed value. -/
def loadData (readResult : Except String String) : Except String JSValue :=
  match readResult with
  | .error e => .error ("Failed to load data file: " ++ e)
  | .ok content =>
    match jsonParse content with
    | .error e => .error ("Failed to load data file: " ++ e)
    | .ok v => .ok v

/-- Model of a JavaScript error value as seen by the error-handling
middleware: a `message` string (a JavaScript `Error` always carries a
string message, possibly empty) and an optional numeric `statusCode`
property (`none` models a plain `Error` with no such property). -/
structure JsError where
  message : String
  statusCode : Option Nat
deriving Repr

/-- Embedding of `new ValidationError(msg)` (src/main.js lines 65-75):
statusCode 400. -/
def validationError (msg : String) : JsError := ⟨msg, some 400⟩

/-- Embedding of `new NotFoundError(msg)` (src/main.js lines 49-59):
statusCode 404. -/
def notFoundError (msg : String) : JsError := ⟨msg, some 404⟩

/-- A plain `new Error(msg)` or a runtime `TypeError`: no statusCode
property. -/
def genericError (msg : String) : JsError := ⟨msg, none⟩

/-- An HTTP response: a status code and a JSON body. -/
structure Response where
  status : Nat
  body : JSValue
deriving Repr

/-- The uniform error envelope body
`\x7b error: \x7b message, statusCode, requestId \x7d \x7d`
(src/main.js lines 192-198 and 203-209). -/
def errEnvelope (status : Nat) (msg : String) (rid : String) : JSValue :=
  .obj [("error", .obj [("message", .str msg),
    ("statusCode", .num (status : Int)), ("requestId", .str rid)])]

/-- JavaScript truthiness of the optional `statusCode` property:
`err.statusCode || 500` yields 500 when the property is absent and
also when it is the (falsy) number 0. -/
def statusOr500 (sc : Option Nat) : Nat :=
  match sc with
  | some n => if n = 0 then 500 else n
  | none => 500

/-- JavaScript truthiness of the `message` string:
`err.message || 'Internal server error'` yields the default exactly
when the message is the (falsy) empty string. -/
def messageOrDefault (msg : String) : String :=
  if msg = "" then "Internal server error" else msg

/-- Embedding of the error-handling middleware (src/main.js lines
180-199): status is `err.statusCode || 500`, message is
`err.message || 'Internal server error'`, and the body is the uniform
error envelope carrying the request's correlation identifier. -/
def errorMiddleware (e : JsError) (rid : String) : Response :=
  let status := statusOr500 e.statusCode
  let msg := messageOrDefault e.message
  ⟨status, errEnvelope status msg rid⟩

/-- Outcome of a route handler: either a direct response, or an error
forwarded to the error-handling middleware via `next(error)`. -/
inductive HandlerStep where
  | respond : Nat → JSValue → HandlerStep
  | forward : JsError → HandlerStep
deriving Repr

/-- Express's composition of a handler with the error-handling
middleware: a forwarded error is rendered by `errorMiddleware`. -/
def runStep (h : HandlerStep) (rid : String) : Response :=
  match h with
  | .respond status body => ⟨status, body⟩
  | .forward e => errorMiddleware e rid

/-- Embedding of `getAllData` (src/main.js lines 138-145): on loader
success respond 200 with the parsed value unchanged; on loader failure
forward the error (a plain `Error`, no statusCode) to the middleware. -/
def getAllData (loader : Except String JSValue) : HandlerStep :=
  match loader with
  | .ok data => .respond 200 data
  | .error msg => .forward (genericError msg)

/-- JavaScript property access `item.guid` (src/main.js line 163):
on `null` it throws a TypeError; on an object it yields the field's
value, or `undefined` when the field is absent; on any other value
(string, number, boolean, array model) it yields `undefined`. -/
def getGuidProp (item : JSValue) : Except String JSValue :=
  match item with
  | .null => .error "Cannot read properties of null (reading 'guid')"
  | .obj fields =>
    match fields.lookup "guid" with
    | some v => .ok v
    | none => .ok .undefined
  | .arr _ => .ok .undefined
  | _ => .ok .undefined

/-- JavaScript strict equality `v === s` where `s` is a string:
true exactly when `v` is the same string; values of any other type
compare unequal. -/
def strictEqStr (v : JSValue) (s : String) : Bool :=
  match v with
  | .str t => t = s
  | _ => false

/-- Embedding of `data.find((item) => item.guid === guid)`
(src/main.js line 163) on an array: scan in order, returning the
first item whose `guid` property is strictly equal to `guid`; a
TypeError thrown by the callback propagates. -/
def findByGuid (guid : String) : List JSValue → Except String (Option JSValue)
  | [] => .ok none
  | item :: rest =>
    match getGuidProp item with
    | .error e => .error e
    | .ok v =>
      if strictEqStr v guid then .ok (some item) else findByGuid guid rest

/-- Embedding of `getItemByGuid` (src/main.js lines 153-173).  The
second component of the result records whether `loadData` was invoked:
validation happens strictly before the load, so a rejected identifier
produces a 400 forward with the loader untouched.  After the load,
`data.find` throws a TypeError when the parsed value is not an array;
any thrown error is caught and forwarded via `next(error)`. -/
def getItemByGuid (guid : String) (loader : Except String JSValue) :
    HandlerStep × Bool :=
  if isValidGuid (.str guid) then
    match loader with
    | .error msg => (.forward (genericError msg), true)
    | .ok data =>
      match data with
      | .arr items =>
        match findByGuid guid items with
        | .error msg => (.forward (genericError msg), true)
        | .ok none =>
          (.forward (notFoundError ("Item not found: " ++ guid)), true)
        | .ok (some item) => (.respond 200 item, true)
      | _ => (.forward (genericError "data.find is not a function"), true)
  else
    (.forward (validationError ("Invalid GUID format: " ++ guid)), false)

/-- The target a request is dispatched to. -/
inductive RouteTarget where
  | health : RouteTarget
  | allData : RouteTarget
  | byGuid : String → RouteTarget
  | noMatch : RouteTarget
deriving Repr, DecidableEq

/-- A path of the shape `/seg` with `seg` a nonempty segment free of
further slashes: the paths captured by the `/:guid` route pattern. -/
def pathParam (p : String) : Option String :=
  match p.data with
  | '/' :: rest =>
    if rest ≠ [] ∧ ¬ rest.contains '/' then some (String.mk rest) else none
  | _ => none

/-- Modelled from the spec: Express's route dispatch is library code
not present in the repository; this models the match order of the
routes registered in src/main.js lines 125, 176-177 — GET `/health`,
GET `/`, GET `/:guid` (any single-segment path), and otherwise no
match. -/
def dispatch (method : String) (p : String) : RouteTarget :=
  if method = "GET" then
    if p = "/health" then .health
    else if p = "/" then .allData
    else
      match pathParam p with
      | some seg => .byGuid seg
      | none => .noMatch
  else .noMatch

/-- Embedding of the 404 handler for undefined routes (src/main.js
lines 202-210): status 404 with the uniform envelope and the message
`Route not found: <method> <url>`. -/
def routeNotFound (method p rid : String) : Response :=
  ⟨404, errEnvelope 404 ("Route not found: " ++ method ++ " " ++ p) rid⟩

/-- Embedding of the health endpoint (src/main.js lines 125-130); the
timestamp produced by `new Date().toISOString()` is abstracted as the
parameter `ts`. -/
def healthResponse (ts : String) : Response :=
  ⟨200, .obj [("status", .str "ok"), ("timestamp", .str ts)]⟩

/-- The composed request pipeline: dispatch the method and path, run
the matched handler against the loader outcome for the given file read
result, render forwarded errors through the error middleware, and fall
through to the route-not-found handler when nothing matches. -/
def serve (method p : String) (readResult : Except String String)
    (ts rid : String) : Response :=
  match dispatch method p with
  | .health => healthResponse ts
  | .allData => runStep (getAllData (loadData readResult)) rid
  | .byGuid g => runStep (getItemByGuid g (loadData readResult)).1 rid
  | .noMatch => routeNotFound method p rid

/-- Erase the correlation identifier from a response body: a body of
the uniform error-envelope shape has its `requestId` field replaced by
`null`; any other body is left unchanged.  Used to state that bodies
are identical except for the correlation identifier. -/
def eraseReqId (b : JSValue) : JSValue :=
  match b with
  | .obj [("error", .obj [("message", m), ("statusCode", s), ("requestId", _)])] =>
    .obj [("error", .obj [("message", m), ("statusCode", s), ("requestId", .null)])]
  | other => other

/-- Spec-side characterization of the canonical UUID textual layout:
the characters split as five hexadecimal-digit groups of lengths 8, 4,
4, 4, 12 separated by single hyphens. -/
def GuidShape (s : String) : Prop :=
  ∃ g1 g2 g3 g4 g5 : List Char,
    s.data = g1 ++ '-' :: (g2 ++ '-' :: (g3 ++ '-' :: (g4 ++ '-' :: g5))) ∧
    g1.length = 8 ∧ g2.length = 4 ∧ g3.length = 4 ∧ g4.length = 4 ∧
    g5.length = 12 ∧
    (∀ c ∈ g1, isHexDigit c) ∧ (∀ c ∈ g2, isHexDigit c) ∧
    (∀ c ∈ g3, isHexDigit c) ∧ (∀ c ∈ g4, isHexDigit c) ∧
    (∀ c ∈ g5, isHexDigit c)

/-- Spec-side match predicate for the search step: a record matches
the identifier exactly when it is an object whose `guid` field holds
the identifier as a string, under exact, case-sensitive string
equality. -/
def specGuidMatch (guid : String) (r : JSValue) : Bool :=
  match r with
  | .obj fields =>
    match fields.lookup "guid" with
    | some (.str g) => g = guid
    | _ => false
  | _ => false

/-- The value JavaScript's `item.guid` yields on a non-null value:
the `guid` field of an object (or `undefined` when absent), and
`undefined` on every non-object. -/
def guidPropOf (item : JSValue) : JSValue :=
  match item with
  | .obj fields => (fields.lookup "guid").getD .undefined
  | _ => .undefined

section Lemmas

/-- A string with a nonempty left part is nonempty, so JavaScript's
`msg || default` keeps it. -/
theorem messageOrDefault_append (s t : String) (hs : s.length ≠ 0) :
    messageOrDefault (s ++ t) = s ++ t := by
  unfold messageOrDefault
  rw [if_neg]
  intro h
  have hl := congrArg String.length h
  rw [String.length_append] at hl
  have h0 : String.length "" = 0 := rfl
  omega

/-- `hexRun n` succeeds exactly on lists beginning with `n`
hexadecimal digits, returning the remainder. -/
theorem hexRun_eq_some (n : Nat) : ∀ l r : List Char,
    hexRun n l = some r ↔
      ∃ pre, l = pre ++ r ∧ pre.length = n ∧ ∀ c ∈ pre, isHexDigit c := by
  induction n with
  | zero =>
    intro l r
    simp only [hexRun, Option.some.injEq]
    constructor
    · intro h
      exact ⟨[], by simp [h], by simp, by simp⟩
    · rintro ⟨pre, hl, hlen, -⟩
      have hp : pre = [] := List.length_eq_zero.mp hlen
      subst hp
      simpa using hl
  | succ n ih =>
    intro l r
    constructor
    · intro h
      cases l with
      | nil => simp [hexRun] at h
      | cons c rest =>
        simp only [hexRun] at h
        by_cases hc : isHexDigit c
        · rw [if_pos hc] at h
          obtain ⟨pre, hl, hlen, hhex⟩ := (ih rest r).mp h
          refine ⟨c :: pre, by simp [hl], by simp [hlen], ?_⟩
          intro x hx
          rcases List.mem_cons.mp hx with h1 | h2
          · rw [h1]; exact hc
          · exact hhex x h2
        · rw [if_neg hc] at h
          exact absurd h (by simp)
    · rintro ⟨pre, hl, hlen, hhex⟩
      cases pre with
      | nil => simp at hlen
      | cons c pre2 =>
        have hc : isHexDigit c := hhex c (by simp)
        have hlen2 : pre2.length = n := by simpa using hlen
        rw [hl]
        simp only [List.cons_append, hexRun, if_pos hc]
        exact (ih (pre2 ++ r) r).mpr
          ⟨pre2, rfl, hlen2, fun x hx => hhex x (by simp [hx])⟩

/-- `hyphenStep` succeeds exactly on lists beginning with a hyphen. -/
theorem hyphenStep_eq_some (l r : List Char) :
    hyphenStep l = some r ↔ l = '-' :: r := by
  cases l with
  | nil => simp [hyphenStep]
  | cons c rest =>
    by_cases hc : c = '-'
    · subst hc; simp [hyphenStep]
    · simp [hyphenStep, hc]

/-- The regex test succeeds exactly when the matching chain consumes
the whole string. -/
theorem guidRegexTest_iff (s : String) :
    guidRegexTest s = true ↔ guidChain s = some [] := by
  cases h : guidChain s with
  | none => simp [guidRegexTest, h]
  | some r =>
    cases r with
    | nil => simp [guidRegexTest, h]
    | cons c cs => simp [guidRegexTest, h]

set_option maxRecDepth 4000 in
/-- The regex matching chain consumes the whole string exactly on
strings of the spec's 8-4-4-4-12 hyphen-separated hex-group layout. -/
theorem guidChain_eq_iff (s : String) :
    guidChain s = some [] ↔ GuidShape s := by
  constructor
  · intro h
    unfold guidChain at h
    rw [Option.bind_eq_some] at h
    obtain ⟨t8, h8, e12⟩ := h
    rw [Option.bind_eq_some] at h8
    obtain ⟨t7, h7, e8⟩ := h8
    rw [Option.bind_eq_some] at h7
    obtain ⟨t6, h6, e7⟩ := h7
    rw [Option.bind_eq_some] at h6
    obtain ⟨t5, h5, e6⟩ := h6
    rw [Option.bind_eq_some] at h5
    obtain ⟨t4, h4, e5⟩ := h5
    rw [Option.bind_eq_some] at h4
    obtain ⟨t3, h3, e4⟩ := h4
    rw [Option.bind_eq_some] at h3
    obtain ⟨t2, h2, e3⟩ := h3
    rw [Option.bind_eq_some] at h2
    obtain ⟨t1, e1, e2⟩ := h2
    obtain ⟨g1, hd1, hl1, hx1⟩ := (hexRun_eq_some 8 _ _).mp e1
    have hh1 := (hyphenStep_eq_some _ _).mp e2
    obtain ⟨g2, hd2, hl2, hx2⟩ := (hexRun_eq_some 4 _ _).mp e3
    have hh2 := (hyphenStep_eq_some _ _).mp e4
    obtain ⟨g3, hd3, hl3, hx3⟩ := (hexRun_eq_some 4 _ _).mp e5
    have hh3 := (hyphenStep_eq_some _ _).mp e6
    obtain ⟨g4, hd4, hl4, hx4⟩ := (hexRun_eq_some 4 _ _).mp e7
    have hh4 := (hyphenStep_eq_some _ _).mp e8
    obtain ⟨g5, hd5, hl5, hx5⟩ := (hexRun_eq_some 12 _ _).mp e12
    refine ⟨g1, g2, g3, g4, g5, ?_, hl1, hl2, hl3, hl4, hl5,
      hx1, hx2, hx3, hx4, hx5⟩
    rw [hd1, hh1, hd2, hh2, hd3, hh3, hd4, hh4, hd5]
    simp
  · rintro ⟨g1, g2, g3, g4, g5, hdata, hl1, hl2, hl3, hl4, hl5,
      hx1, hx2, hx3, hx4, hx5⟩
    unfold guidChain
    have e1 : hexRun 8 s.data =
        some ('-' :: (g2 ++ '-' :: (g3 ++ '-' :: (g4 ++ '-' :: g5)))) :=
      (hexRun_eq_some 8 _ _).mpr ⟨g1, by rw [hdata], hl1, hx1⟩
    have e2 : hexRun 4 (g2 ++ '-' :: (g3 ++ '-' :: (g4 ++ '-' :: g5))) =
        some ('-' :: (g3 ++ '-' :: (g4 ++ '-' :: g5))) :=
      (hexRun_eq_some 4 _ _).mpr ⟨g2, rfl, hl2, hx2⟩
    have e3 : hexRun 4 (g3 ++ '-' :: (g4 ++ '-' :: g5)) =
        some ('-' :: (g4 ++ '-' :: g5)) :=
      (hexRun_eq_some 4 _ _).mpr ⟨g3, rfl, hl3, hx3⟩
    have e4 : hexRun 4 (g4 ++ '-' :: g5) = some ('-' :: g5) :=
      (hexRun_eq_some 4 _ _).mpr ⟨g4, rfl, hl4, hx4⟩
    have e5 : hexRun 12 g5 = some [] :=
      (hexRun_eq_some 12 _ _).mpr ⟨g5, by simp, hl5, hx5⟩
    have hy : ∀ r : List Char, hyphenStep ('-' :: r) = some r :=
      fun r => by simp [hyphenStep]
    rw [e1, Option.some_bind', hy, Option.some_bind', e2, Option.some_bind',
      hy, Option.some_bind', e3, Option.some_bind', hy, Option.some_bind',
      e4, Option.some_bind', hy, Option.some_bind', e5]

/-- A string of the GUID layout has exactly 36 characters. -/
theorem GuidShape.length_eq (s : String) (h : GuidShape s) :
    s.length = 36 := by
  obtain ⟨g1, g2, g3, g4, g5, hdata, hl1, hl2, hl3, hl4, hl5, -⟩ := h
  have hd : s.data.length = 36 := by
    rw [hdata]
    simp only [List.length_append, List.length_cons, hl1, hl2, hl3, hl4, hl5]
  exact hd

/-- On a non-null item, the property access `item.guid` does not throw
and yields `guidPropOf item`. -/
theorem guidPropOf_eq (item : JSValue) (h1 : item ≠ JSValue.null) :
    getGuidProp item = .ok (guidPropOf item) := by
  cases item with
  | null => exact absurd rfl h1
  | obj fields =>
    cases hl : fields.lookup "guid" with
    | none => simp [getGuidProp, guidPropOf, hl]
    | some v => simp [getGuidProp, guidPropOf, hl]
  | undefined => rfl
  | bool b => rfl
  | num n => rfl
  | str s => rfl
  | arr l => rfl

/-- The strict-equality test of the search callback agrees with the
spec-side match predicate. -/
theorem strictEq_guidProp (guid : String) (item : JSValue) :
    strictEqStr (guidPropOf item) guid = specGuidMatch guid item := by
  cases item with
  | obj fields =>
    cases hl : fields.lookup "guid" with
    | none => simp [specGuidMatch, guidPropOf, hl, strictEqStr]
    | some v =>
      cases v with
      | str g => simp [specGuidMatch, guidPropOf, hl, strictEqStr]
      | undefined => simp [specGuidMatch, guidPropOf, hl, strictEqStr]
      | null => simp [specGuidMatch, guidPropOf, hl, strictEqStr]
      | bool b => simp [specGuidMatch, guidPropOf, hl, strictEqStr]
      | num n => simp [specGuidMatch, guidPropOf, hl, strictEqStr]
      | arr l => simp [specGuidMatch, guidPropOf, hl, strictEqStr]
      | obj f2 => simp [specGuidMatch, guidPropOf, hl, strictEqStr]
  | null => rfl
  | undefined => rfl
  | bool b => rfl
  | num n => rfl
  | str s => rfl
  | arr l => rfl

/-- On a dataset free of null records, the embedded `data.find`
neither throws nor misses: it returns exactly the first record
satisfying the spec-side match predicate. -/
theorem findByGuid_eq_find (guid : String) (data : List JSValue)
    (hnn : ∀ r ∈ data, r ≠ JSValue.null) :
    findByGuid guid data = .ok (data.find? (specGuidMatch guid)) := by
  induction data with
  | nil => rfl
  | cons item rest ih =>
    have h1 : item ≠ JSValue.null := hnn item (by simp)
    have h2 : ∀ r ∈ rest, r ≠ JSValue.null :=
      fun r hr => hnn r (List.mem_cons_of_mem item hr)
    have hstep := guidPropOf_eq item h1
    have heq := strictEq_guidProp guid item
    cases hm : specGuidMatch guid item with
    | true =>
      simp only [findByGuid, hstep, heq, hm, if_true]
      rw [List.find?_cons_of_pos _ hm]
    | false =>
      simp only [findByGuid, hstep, heq, hm]
      rw [if_neg (by simp), List.find?_cons_of_neg _ (by simp [hm]), ih h2]

/-- Every load failure carries a message wrapped with the fixed
`Failed to load data file: ` prompt. -/
theorem loadData_error_wrapped (rr : Except String String) (e : String)
    (h : loadData rr = .error e) :
    ∃ t, e = "Failed to load data file: " ++ t := by
  cases rr with
  | error e0 =>
    simp [loadData] at h
    exact ⟨e0, h.symm⟩
  | ok content =>
    cases hp : jsonParse content with
    | error e0 =>
      simp [loadData, hp] at h
      exact ⟨e0, h.symm⟩
    | ok v => simp [loadData, hp] at h

/-- A load-failure message is nonempty, so the error middleware keeps
it verbatim. -/
theorem loadData_error_msg (rr : Except String String) (e : String)
    (h : loadData rr = .error e) : messageOrDefault e = e := by
  obtain ⟨t, rfl⟩ := loadData_error_wrapped rr e h
  exact messageOrDefault_append _ _ (by decide)

/-- The response status never depends on the correlation identifier. -/
theorem runStep_status_rid (h : HandlerStep) (r1 r2 : String) :
    (runStep h r1).status = (runStep h r2).status := by
  cases h with
  | respond st b => rfl
  | forward e => rfl

/-- Erasing the `requestId` field from the uniform envelope. -/
theorem eraseReqId_errEnvelope (st : Nat) (msg rid : String) :
    eraseReqId (errEnvelope st msg rid) =
      .obj [("error", .obj [("message", .str msg),
        ("statusCode", .num (st : Int)), ("requestId", .null)])] := rfl

/-- After erasing the correlation identifier, the response body never
depends on it. -/
theorem runStep_body_rid (h : HandlerStep) (r1 r2 : String) :
    eraseReqId (runStep h r1).body = eraseReqId (runStep h r2).body := by
  cases h with
  | respond st b => rfl
  | forward e =>
    simp only [runStep, errorMiddleware]
    rw [eraseReqId_errEnvelope, eraseReqId_errEnvelope]

/-- A rejected identifier renders as the 400 validation envelope,
whatever the loader outcome. -/
theorem runStep_invalid_guid (guid rid : String)
    (loader : Except String JSValue)
    (h : isValidGuid (.str guid) = false) :
    runStep (getItemByGuid guid loader).1 rid =
      ⟨400, errEnvelope 400 ("Invalid GUID format: " ++ guid) rid⟩ := by
  have hmsg := messageOrDefault_append "Invalid GUID format: " guid (by decide)
  unfold getItemByGuid
  rw [h]
  simp only [Bool.false_eq_true, if_false]
  simp [runStep, errorMiddleware, validationError, statusOr500, hmsg]

/-- On a valid identifier and a null-free dataset array, the handler
step is determined by the first spec-side match. -/
theorem getItemByGuid_valid_step (guid : String) (data : List JSValue)
    (hv : isValidGuid (.str guid) = true)
    (hnn : ∀ r ∈ data, r ≠ JSValue.null) :
    (getItemByGuid guid (.ok (.arr data))).1 =
      (match data.find? (specGuidMatch guid) with
       | some r => HandlerStep.respond 200 r
       | none => HandlerStep.forward
           (notFoundError ("Item not found: " ++ guid))) := by
  unfold getItemByGuid
  rw [if_pos hv]
  dsimp only
  rw [findByGuid_eq_find guid data hnn]
  cases List.find? (specGuidMatch guid) data <;> rfl

end Lemmas

/-- C1, counterexample: the file content consisting of an empty JSON
object parses as JSON, its top-level value is not an array, and yet
`loadData` succeeds and returns that value — it does not signal a load
failure, contrary to the claim. -/
theorem c1_counterexample :
    jsonParse "\x7b\x7d" = .ok (JSValue.obj []) ∧
    (∀ items : List JSValue, JSValue.obj [] ≠ JSValue.arr items) ∧
    loadData (.ok "\x7b\x7d") = .ok (JSValue.obj []) := by
  refine ⟨rfl, ?_, rfl⟩
  intro items
  simp

/-- C1, amended: whenever the file content parses as JSON, the Data
Loader succeeds and returns the parsed top-level value unchanged,
whether or not it is an array; `loadData` performs no shape check, and
fails only when the read or the parse fails. -/
theorem c1_load_no_shape_check (content : String) (v : JSValue)
    (h : jsonParse content = .ok v) :
    loadData (.ok content) = .ok v := by
  simp [loadData, h]

/-- C1, witness: the amended theorem evaluated on concrete non-array
content. -/
theorem c1_load_no_shape_check_witness :
    loadData (.ok "\x7b\x7d") = .ok (JSValue.obj []) :=
  c1_load_no_shape_check "\x7b\x7d" (JSValue.obj []) rfl

/-- C3: the identifier validator accepts an input iff it is a string
of exactly 36 characters laid out as 8-4-4-4-12 hexadecimal-digit
groups separated by hyphens (case-insensitively, via `isHexDigit`);
every other input — wrong length, missing hyphens, non-hex characters,
or a non-string value — is rejected. -/
theorem c3_validator_characterization (v : JSValue) :
    isValidGuid v = true ↔
      ∃ s : String, v = JSValue.str s ∧ s.length = 36 ∧ GuidShape s := by
  constructor
  · intro h
    cases v with
    | str s =>
      have hb : guidRegexTest s = true := by simpa [isValidGuid] using h
      have hg : GuidShape s :=
        (guidChain_eq_iff s).mp ((guidRegexTest_iff s).mp hb)
      exact ⟨s, rfl, GuidShape.length_eq s hg, hg⟩
    | undefined => simp [isValidGuid] at h
    | null => simp [isValidGuid] at h
    | bool b => simp [isValidGuid] at h
    | num n => simp [isValidGuid] at h
    | arr l => simp [isValidGuid] at h
    | obj f => simp [isValidGuid] at h
  · rintro ⟨s, rfl, hlen, hg⟩
    show guidRegexTest s = true
    exact (guidRegexTest_iff s).mpr ((guidChain_eq_iff s).mpr hg)

/-- C3, witness: the characterization evaluated forward on a concrete
valid identifier. -/
theorem c3_witness :
    ∃ s : String,
      JSValue.str "05024756-765e-41a9-89d7-1407436d9a58" = JSValue.str s ∧
      s.length = 36 ∧ GuidShape s :=
  (c3_validator_characterization _).mp (by decide)

/-- C4: for every identifier rejected by the validator, the
get-by-identifier handler fails with the validation error
`Invalid GUID format: <value>` and status 400, the Data Loader is not
invoked (the invocation flag is false), and the outcome is independent
of the loader — validation happens strictly before the load step. -/
theorem c4_validation_before_load (guid rid : String)
    (loader loader2 : Except String JSValue)
    (h : isValidGuid (.str guid) = false) :
    (getItemByGuid guid loader).2 = false ∧
    getItemByGuid guid loader = getItemByGuid guid loader2 ∧
    runStep (getItemByGuid guid loader).1 rid =
      ⟨400, errEnvelope 400 ("Invalid GUID format: " ++ guid) rid⟩ := by
  have hmsg : messageOrDefault ("Invalid GUID format: " ++ guid) =
      "Invalid GUID format: " ++ guid :=
    messageOrDefault_append _ _ (by decide)
  unfold getItemByGuid
  rw [h]
  simp only [Bool.false_eq_true, if_false]
  refine ⟨trivial, trivial, ?_⟩
  simp [runStep, errorMiddleware, validationError, statusOr500, hmsg]

/-- C4, witness: the theorem evaluated on the concrete malformed
identifier `invalid-guid` with two different loader outcomes. -/
theorem c4_witness :
    (getItemByGuid "invalid-guid" (.ok (.arr []))).2 = false ∧
    getItemByGuid "invalid-guid" (.ok (.arr [])) =
      getItemByGuid "invalid-guid" (.error "x") ∧
    runStep (getItemByGuid "invalid-guid" (.ok (.arr []))).1 "r1" =
      ⟨400, errEnvelope 400 ("Invalid GUID format: " ++ "invalid-guid") "r1"⟩ :=
  c4_validation_before_load "invalid-guid" "r1" (.ok (.arr [])) (.error "x")
    (by decide)

/-- C5: for every error value reaching the error-handling middleware
(with any explicit status code nonzero, as all of this program's
are), the response status is the error's explicit status code if
present and 500 otherwise, the message is the error's message when
nonempty and `Internal server error` otherwise, and the body is
exactly the `error/message-statusCode-requestId` envelope carrying the
request's correlation identifier. -/
theorem c5_error_responder (e : JsError) (rid : String)
    (h0 : e.statusCode ≠ some 0) :
    ∃ msg : String,
      errorMiddleware e rid =
        ⟨e.statusCode.getD 500, errEnvelope (e.statusCode.getD 500) msg rid⟩ ∧
      (e.message ≠ "" → msg = e.message) ∧
      (e.message = "" → msg = "Internal server error") := by
  have hst : statusOr500 e.statusCode = e.statusCode.getD 500 := by
    cases hsc : e.statusCode with
    | none => rfl
    | some n =>
      have hn : n ≠ 0 := by
        intro hz
        exact h0 (by rw [hsc, hz])
      simp [statusOr500, hn]
  refine ⟨messageOrDefault e.message, ?_, ?_, ?_⟩
  · unfold errorMiddleware
    rw [hst]
  · intro hne
    simp [messageOrDefault, hne]
  · intro he
    simp [messageOrDefault, he]

/-- C5, witness: the theorem evaluated on a concrete not-found-style
error. -/
theorem c5_witness :
    ∃ msg : String,
      errorMiddleware ⟨"boom", some 404⟩ "r1" =
        ⟨(JsError.mk "boom" (some 404)).statusCode.getD 500,
         errEnvelope ((JsError.mk "boom" (some 404)).statusCode.getD 500)
           msg "r1"⟩ ∧
      ((JsError.mk "boom" (some 404)).message ≠ "" →
        msg = (JsError.mk "boom" (some 404)).message) ∧
      ((JsError.mk "boom" (some 404)).message = "" →
        msg = "Internal server error") :=
  c5_error_responder ⟨"boom", some 404⟩ "r1" (by decide)

/-- C2: for every well-formed identifier and every dataset of records
(JSON objects), the get-by-identifier handler scans the dataset in
order and responds 200 with the first record whose `guid` field equals
the identifier under exact, case-sensitive string equality (the
`specGuidMatch` predicate); when no record matches, it fails with the
not-found error `Item not found: <value>` and status 404. -/
theorem c2_get_by_guid (guid rid : String) (data : List JSValue)
    (hv : isValidGuid (.str guid) = true)
    (hrec : ∀ r ∈ data, ∃ fields, r = JSValue.obj fields) :
    (∀ r, data.find? (specGuidMatch guid) = some r →
      runStep (getItemByGuid guid (.ok (.arr data))).1 rid = ⟨200, r⟩) ∧
    (data.find? (specGuidMatch guid) = none →
      runStep (getItemByGuid guid (.ok (.arr data))).1 rid =
        ⟨404, errEnvelope 404 ("Item not found: " ++ guid) rid⟩) := by
  have hnn : ∀ r ∈ data, r ≠ JSValue.null := by
    intro r hr
    obtain ⟨fields, rfl⟩ := hrec r hr
    simp
  have hstep := getItemByGuid_valid_step guid data hv hnn
  have hmsg := messageOrDefault_append "Item not found: " guid (by decide)
  constructor
  · intro r hr
    rw [hstep, hr]
    rfl
  · intro hr
    rw [hstep, hr]
    simp [runStep, errorMiddleware, notFoundError, statusOr500, hmsg]

/-- C2, witness: the theorem evaluated on a concrete one-record
dataset containing the looked-up identifier. -/
theorem c2_witness :
    (∀ r, [JSValue.obj [("guid",
        JSValue.str "05024756-765e-41a9-89d7-1407436d9a58")]].find?
        (specGuidMatch "05024756-765e-41a9-89d7-1407436d9a58") = some r →
      runStep (getItemByGuid "05024756-765e-41a9-89d7-1407436d9a58"
        (.ok (.arr [JSValue.obj [("guid",
          JSValue.str "05024756-765e-41a9-89d7-1407436d9a58")]]))).1 "r1" =
        ⟨200, r⟩) ∧
    ([JSValue.obj [("guid",
        JSValue.str "05024756-765e-41a9-89d7-1407436d9a58")]].find?
        (specGuidMatch "05024756-765e-41a9-89d7-1407436d9a58") = none →
      runStep (getItemByGuid "05024756-765e-41a9-89d7-1407436d9a58"
        (.ok (.arr [JSValue.obj [("guid",
          JSValue.str "05024756-765e-41a9-89d7-1407436d9a58")]]))).1 "r1" =
        ⟨404, errEnvelope 404 ("Item not found: " ++
          "05024756-765e-41a9-89d7-1407436d9a58") "r1"⟩) :=
  c2_get_by_guid "05024756-765e-41a9-89d7-1407436d9a58" "r1" _ (by decide)
    (by intro r hr; simp at hr; subst hr; exact ⟨_, rfl⟩)

/-- C6: for every request to the list endpoint, a Data Loader success
yields status 200 with the parsed record sequence unmodified, and a
Data Loader failure surfaces through the error middleware as status
500 with the wrapped message in the uniform envelope. -/
theorem c6_list_endpoint (readResult : Except String String) (ts rid : String) :
    (∀ v, loadData readResult = .ok v →
      serve "GET" "/" readResult ts rid = ⟨200, v⟩) ∧
    (∀ e, loadData readResult = .error e →
      serve "GET" "/" readResult ts rid = ⟨500, errEnvelope 500 e rid⟩) := by
  have hserve : serve "GET" "/" readResult ts rid =
      runStep (getAllData (loadData readResult)) rid := rfl
  constructor
  · intro v hv
    rw [hserve, hv]
    rfl
  · intro e he
    have hm := loadData_error_msg readResult e he
    rw [hserve, he]
    simp [runStep, getAllData, genericError, errorMiddleware, statusOr500, hm]

/-- C6, witness: the theorem evaluated on a concrete readable empty
dataset. -/
theorem c6_witness :
    (∀ v, loadData (.ok "[]") = .ok v →
      serve "GET" "/" (.ok "[]") "ts" "r1" = ⟨200, v⟩) ∧
    (∀ e, loadData (.ok "[]") = .error e →
      serve "GET" "/" (.ok "[]") "ts" "r1" = ⟨500, errEnvelope 500 e "r1"⟩) :=
  c6_list_endpoint (.ok "[]") "ts" "r1"

/-- C7: for every request whose method and path match no handler, the
response is status 404 with the uniform error envelope, a message
beginning with (hence containing) `Route not found`, and a `requestId`
field equal to the request's correlation identifier. -/
theorem c7_route_not_found (method p : String)
    (readResult : Except String String) (ts rid : String)
    (h : dispatch method p = RouteTarget.noMatch) :
    serve method p readResult ts rid =
      ⟨404, errEnvelope 404 ("Route not found: " ++ method ++ " " ++ p) rid⟩ ∧
    ∃ rest, "Route not found: " ++ method ++ " " ++ p =
      "Route not found" ++ rest := by
  constructor
  · unfold serve
    rw [h]
    rfl
  · refine ⟨": " ++ method ++ " " ++ p, ?_⟩
    rw [show ("Route not found: " : String) = "Route not found" ++ ": " from rfl]
    simp only [String.append_assoc]

/-- C7, witness: the theorem evaluated on a concrete unmatched POST
request. -/
theorem c7_witness :
    serve "POST" "/health" (.ok "[]") "ts" "r1" =
      ⟨404, errEnvelope 404 ("Route not found: " ++ "POST" ++ " " ++ "/health")
        "r1"⟩ ∧
    ∃ rest, "Route not found: " ++ "POST" ++ " " ++ "/health" =
      "Route not found" ++ rest :=
  c7_route_not_found "POST" "/health" (.ok "[]") "ts" "r1" (by decide)

/-- C8: two runs of any non-health route (in particular the list
handler and the get-by-identifier handler) on the same method, path
and file content produce the same status and, after erasing the
correlation identifier from the error envelope, identical bodies —
the handlers are deterministic functions of path and file content. -/
theorem c8_handler_determinism (method p : String)
    (readResult : Except String String) (ts1 ts2 rid1 rid2 : String)
    (h : dispatch method p ≠ RouteTarget.health) :
    (serve method p readResult ts1 rid1).status =
      (serve method p readResult ts2 rid2).status ∧
    eraseReqId (serve method p readResult ts1 rid1).body =
      eraseReqId (serve method p readResult ts2 rid2).body := by
  unfold serve
  cases hd : dispatch method p with
  | health => exact absurd hd h
  | allData => exact ⟨runStep_status_rid _ _ _, runStep_body_rid _ _ _⟩
  | byGuid g => exact ⟨runStep_status_rid _ _ _, runStep_body_rid _ _ _⟩
  | noMatch =>
    refine ⟨rfl, ?_⟩
    unfold routeNotFound
    dsimp only
    rw [eraseReqId_errEnvelope, eraseReqId_errEnvelope]

/-- C8, witness: the theorem evaluated on two runs of the list
endpoint over an unparsable file, with distinct timestamps and
correlation identifiers. -/
theorem c8_witness :
    (serve "GET" "/" (.ok "nonsense") "t1" "r1").status =
      (serve "GET" "/" (.ok "nonsense") "t2" "r2").status ∧
    eraseReqId (serve "GET" "/" (.ok "nonsense") "t1" "r1").body =
      eraseReqId (serve "GET" "/" (.ok "nonsense") "t2" "r2").body :=
  c8_handler_determinism "GET" "/" (.ok "nonsense") "t1" "t2" "r1" "r2"
    (by decide)

/-- C9: every GET request whose path is a single segment other than
`/` and `/health` is dispatched to the get-by-identifier handler, so a
malformed single-segment path yields the 400 validation envelope
rather than the route-not-found 404; the route-not-found outcome is
reachable only for non-GET methods or paths that are not a single
segment (and are not `/` or `/health`). -/
theorem c9_single_segment_routing (method p : String) :
    (∀ seg, pathParam p = some seg → p ≠ "/health" →
      dispatch "GET" p = .byGuid seg) ∧
    (∀ seg, pathParam p = some seg → p ≠ "/health" →
      isValidGuid (.str seg) = false →
      ∀ (readResult : Except String String) (ts rid : String),
        serve "GET" p readResult ts rid =
          ⟨400, errEnvelope 400 ("Invalid GUID format: " ++ seg) rid⟩) ∧
    (dispatch method p = .noMatch →
      method ≠ "GET" ∨ (pathParam p = none ∧ p ≠ "/" ∧ p ≠ "/health")) := by
  have hroot : ∀ seg, pathParam p = some seg → p ≠ "/" := by
    intro seg hp heq
    rw [heq] at hp
    rw [show pathParam "/" = none from rfl] at hp
    exact Option.noConfusion hp
  have hdisp : ∀ seg, pathParam p = some seg → p ≠ "/health" →
      dispatch "GET" p = .byGuid seg := by
    intro seg hp hneq
    unfold dispatch
    rw [if_pos rfl, if_neg hneq, if_neg (hroot seg hp), hp]
  refine ⟨hdisp, ?_, ?_⟩
  · intro seg hp hneq hbad readResult ts rid
    unfold serve
    rw [hdisp seg hp hneq]
    exact runStep_invalid_guid seg rid _ hbad
  · intro hnm
    by_cases hm : method = "GET"
    · right
      subst hm
      unfold dispatch at hnm
      rw [if_pos rfl] at hnm
      by_cases h1 : p = "/health"
      · rw [if_pos h1] at hnm
        exact absurd hnm (by simp)
      · rw [if_neg h1] at hnm
        by_cases h2 : p = "/"
        · rw [if_pos h2] at hnm
          exact absurd hnm (by simp)
        · rw [if_neg h2] at hnm
          cases hp : pathParam p with
          | some seg =>
            rw [hp] at hnm
            exact absurd hnm (by simp)
          | none => exact ⟨rfl, h2, h1⟩
    · exact Or.inl hm

/-- C9, witness: `GET /favicon.ico` reaches the get-by-identifier
handler and yields the 400 validation envelope, not a 404. -/
theorem c9_witness :
    serve "GET" "/favicon.ico" (.ok "[]") "ts" "r1" =
      ⟨400, errEnvelope 400 ("Invalid GUID format: " ++ "favicon.ico") "r1"⟩ :=
  (c9_single_segment_routing "GET" "/favicon.ico").2.1 "favicon.ico"
    (by decide) (by decide) (by decide) (.ok "[]") "ts" "r1"

/-- C10, counterexample: the lookup is not total over arbitrary record
shapes — on a dataset containing the JSON `null` record (whose `guid`
field is certainly missing) and a well-formed identifier, the property
access throws a TypeError and the handler fails with status 500
instead of skipping the record, contrary to the claim. -/
theorem c10_counterexample :
    isValidGuid (.str "00000000-0000-0000-0000-000000000000") = true ∧
    (runStep (getItemByGuid "00000000-0000-0000-0000-000000000000"
      (.ok (.arr [JSValue.null]))).1 "r1").status = 500 := by
  exact ⟨by decide, rfl⟩

/-- C10, amended: for every well-formed identifier and every dataset
free of JSON `null` records, the lookup is total: records whose `guid`
field is missing or not a string never match and never cause a
failure — the search succeeds and is determined solely by the first
record carrying a string `guid` equal to the identifier. -/
theorem c10_lookup_total_nonnull (guid : String) (data : List JSValue)
    (hv : isValidGuid (.str guid) = true)
    (hnn : ∀ r ∈ data, r ≠ JSValue.null) :
    ∃ found : Option JSValue,
      findByGuid guid data = .ok found ∧
      found = data.find? (specGuidMatch guid) ∧
      (getItemByGuid guid (.ok (.arr data))).1 =
        (match found with
         | some r => HandlerStep.respond 200 r
         | none => HandlerStep.forward
             (notFoundError ("Item not found: " ++ guid))) := by
  refine ⟨data.find? (specGuidMatch guid), findByGuid_eq_find guid data hnn,
    rfl, ?_⟩
  exact getItemByGuid_valid_step guid data hv hnn

/-- C10, witness: the amended theorem evaluated on a concrete dataset
whose single record carries a non-matching string `guid`. -/
theorem c10_witness :
    ∃ found : Option JSValue,
      findByGuid "00000000-0000-0000-0000-000000000000"
        [JSValue.obj [("guid", JSValue.str "x")]] = .ok found ∧
      found = [JSValue.obj [("guid", JSValue.str "x")]].find?
        (specGuidMatch "00000000-0000-0000-0000-000000000000") ∧
      (getItemByGuid "00000000-0000-0000-0000-000000000000"
        (.ok (.arr [JSValue.obj [("guid", JSValue.str "x")]]))).1 =
        (match found with
         | some r => HandlerStep.respond 200 r
         | none => HandlerStep.forward
             (notFoundError ("Item not found: " ++
               "00000000-0000-0000-0000-000000000000"))) :=
  c10_lookup_total_nonnull "00000000-0000-0000-0000-000000000000" _
    (by decide) (by intro r hr; simp at hr; subst hr; simp)

end JsApi
